import Mathlib

/-!
Verification development for the traffic-intake pipeline and the bounded
multi-stream event store of this repository (src/api/index.py and
src/api/utils/redis_client.py).

The Python code is shallowly embedded as executable Lean definitions.
External collaborators (the NVIDIA completion service, the Toolhouse
geocoding agent, the Python stdlib json.loads) are modelled as oracle
parameters: the pipeline is a pure function of the report input, the
oracle outcomes, and the current store state.  Redis is modelled as an
in-memory store with the exact stream semantics the client requests
(XADD with an exact MAXLEN trim, XDEL, XREVRANGE, XLEN, XTRIM 0).
Wall-clock timestamps and floating-point representation are idealised:
timestamps are omitted from events, and Python floats are modelled as
exact rationals (the decimal literal captured by the coordinate regex is
interpreted exactly).
-/

/-! ### Character and string helpers (Python string primitives) -/

/-- The character used by Python str.find for a left brace. -/
def lbraceChar : Char := Char.ofNat 123

/-- The character used by Python str.rfind for a right brace. -/
def rbraceChar : Char := Char.ofNat 125

/-- Python str.lower (ASCII-faithful). -/
def lowerStr (s : String) : String := String.mk (s.toList.map Char.toLower)

/-- Boolean list-prefix test. -/
def isPrefixList : List Char → List Char → Bool
  | [], _ => true
  | _ :: _, [] => false
  | a :: as, b :: bs => a == b && isPrefixList as bs

/-- Python bool(s) for a string: nonemptiness (list-level, so that
concrete runs reduce in the kernel). -/
def strEmpty (s : String) : Bool := s.toList.isEmpty

/-- Python str.strip(): whitespace removed from both ends. -/
def pyStrip (s : String) : String :=
  String.mk (((s.toList.dropWhile Char.isWhitespace).reverse.dropWhile
    Char.isWhitespace).reverse)

/-- Python slicing s[:n]. -/
def strTake (s : String) (n : Nat) : String := String.mk (s.toList.take n)

/-- Python slicing s[n:]. -/
def strDrop (s : String) (n : Nat) : String := String.mk (s.toList.drop n)

/-- Python str.startswith. -/
def strStartsWith (s p : String) : Bool := isPrefixList p.toList s.toList

/-- All suffixes of a list, longest first (used for substring search). -/
def tailsList : List Char → List (List Char)
  | [] => [[]]
  | c :: r => (c :: r) :: tailsList r

/-- Python substring containment `needle in hay`. -/
def containsSub (hay needle : String) : Bool :=
  (tailsList hay.toList).any (fun t => isPrefixList needle.toList t)

/-- Case-insensitive occurrence of `needle` in `hay` (the notion used by the
spec sentence "matched case-insensitively as substrings"). -/
def occursCI (needle hay : String) : Bool :=
  containsSub (lowerStr hay) (lowerStr needle)

/-- The characters of a string before the first occurrence of `sep`
(the whole string when `sep` never occurs); models the second element of
Python str.split(sep, maxsplit=2) for a string starting with `sep`. -/
def takeUntilSub : List Char → List Char → List Char
  | [], _ => []
  | c :: rest, sep =>
    if isPrefixList sep (c :: rest) then [] else c :: takeUntilSub rest sep

/-- Python str.find for a single character: index of first occurrence. -/
def findIdxChar (l : List Char) (c : Char) : Option Nat :=
  l.findIdx? (fun x => x == c)

/-- Python str.rfind for a single character: index of last occurrence. -/
def rfindIdxChar (l : List Char) (c : Char) : Option Nat :=
  match findIdxChar l.reverse c with
  | none => none
  | some i => some (l.length - 1 - i)

/-- Python str.rstrip with a single strip character. -/
def rstripChar (s : String) (c : Char) : String :=
  String.mk ((s.toList.reverse.dropWhile (fun x => x == c)).reverse)

/-- Pad a decimal numeral with leading zeros up to width `w`. -/
def padLeftZeros (s : String) (w : Nat) : String :=
  String.mk (List.replicate (w - s.toList.length) (Char.ofNat 48)) ++ s

/-! ### JSON value model

`json.loads` is Python stdlib, external to the repository; it is modelled
as an oracle function producing the field list of a JSON object (JSON
documents whose top level is not an object are modelled as parse
failures, which the pipeline treats the same way).  JSON numbers are
idealised as integers; no claim depends on fractional JSON numbers. -/

inductive JVal where
  | null
  | bool (b : Bool)
  | num (n : Int)
  | str (s : String)
  | arr (xs : List JVal)
  | obj (fields : List (String × JVal))

/-- A parsed JSON object: what `json.loads` yields for a JSON document. -/
abbrev JObj := List (String × JVal)

/-- The oracle type standing for Python `json.loads`. -/
abbrev JsonLoads := String → Option JObj

/-- Python truthiness of a JSON-decoded value (`bool(x)`). -/
def JVal.truthy : JVal → Bool
  | .null => false
  | .bool b => b
  | .num n => n != 0
  | .str s => !strEmpty s
  | .arr xs => !xs.isEmpty
  | .obj fs => !fs.isEmpty

/-- Python `str(x)` for a JSON-decoded value (container cases are
approximate renderings; no claim depends on them). -/
def pyStr : JVal → String
  | .null => "None"
  | .bool true => "True"
  | .bool false => "False"
  | .num n => toString n
  | .str s => s
  | .arr _ => "[...]"
  | .obj _ => "\x7b...\x7d"

/-- Python `d.get(k)` on a parsed JSON object (keys are unique in a
Python dict, so first-match lookup is faithful). -/
def getKey : JObj → String → Option JVal
  | [], _ => none
  | (k2, v) :: rest, k => if k2 = k then some v else getKey rest k

/-- Python `d.get(k, default)` rendered to a string via `str`. -/
def strOrDefault (o : Option JVal) (d : String) : String :=
  match o with
  | some v => pyStr v
  | none => d

/-- Embedding of `extract_json_block` (index.py): strip Markdown fences
and a leading "json" tag, try `json.loads`, and on failure retry on the
first-brace..last-brace slice of the original payload; any failure
yields the empty object. -/
def extract_json_block (loads : JsonLoads) (payload : String) : JObj :=
  if strEmpty payload then []
  else
    let t0 := pyStrip payload
    let t1 :=
      if strStartsWith t0 "```" then
        pyStrip (String.mk (takeUntilSub (t0.toList.drop 3) "```".toList))
      else t0
    let t2 := if strStartsWith t1 "json" then pyStrip (strDrop t1 4) else t1
    match loads t2 with
    | some fs => fs
    | none =>
      match findIdxChar payload.toList lbraceChar,
            rfindIdxChar payload.toList rbraceChar with
      | some s, some e =>
        if s < e then
          match loads (String.mk ((payload.toList.drop s).take (e + 1 - s))) with
          | some fs => fs
          | none => []
        else []
      | _, _ => []

/-! ### Keyword prefilter (index.py lines 735-781) -/

/-- The fixed reject-phrase list of the keyword prefilter. -/
def reject_phrases : List String :=
  ["bogus", "non traffic", "not traffic", "fake", "test message", "spam",
   "hello", "hi there", "how are you", "almost done", "i\x27m done", "finished"]

/-- The fixed accept-keyword list of the keyword prefilter. -/
def traffic_keywords : List String :=
  ["accident", "crash", "collision", "wreck", "fender bender",
   "blocking", "blocked", "stalled", "disabled", "breakdown", "stuck",
   "construction", "road work", "lane closure", "closure", "closed",
   "congestion", "jam", "backup", "slow", "heavy traffic", "delay",
   "detour", "alternate route",
   "truck", "car", "vehicle", "bus", "motorcycle", "debris", "pothole",
   "intersection", "street", "road", "highway", "freeway", "lane",
   "bridge", "tunnel", "exit", "ramp", "overpass",
   "i-35", "mopac", "183", "290", "loop", "toll", "downtown", "austin",
   "lavaca", "congress", "guadalupe", "lamar", "burnet"]

/-- `text_content` as computed by the pipeline: the stripped text, or the
placeholder used when only attachments were supplied. -/
def text_content_of (text : String) : String :=
  if !strEmpty (pyStrip text) then pyStrip text else "Traffic report with attachments"

/-- The keyword prefilter: the final value of `has_traffic_keywords`
after the reject-phrase override (index.py lines 761-774). -/
def keywordEvidence (text_content : String) : Bool :=
  let text_lower := lowerStr text_content
  let has_reject_phrases := reject_phrases.any (fun p => containsSub text_lower p)
  let has_traffic_keywords := traffic_keywords.any (fun k => containsSub text_lower k)
  if has_reject_phrases then false else has_traffic_keywords

/-! ### Severity normalization (index.py lines 968-971) -/

/-- The severity enum accepted unchanged by the normalization step. -/
def severity_enum : List String := ["low", "medium", "high", "irrelevant"]

/-- Embedding of `str(payload.get("severity", "unknown")).lower()`
followed by the enum check. -/
def normalizeSeverity (v : JVal) : String :=
  let s := lowerStr (pyStr v)
  if s ∈ severity_enum then s else "unknown"

/-! ### Coordinate extraction and precision-preserving formatting
(index.py lines 283-308 and 1003-1009)

The coordinate regex captures a signed decimal literal; `float(...)` on
that capture is idealised as the exact rational value of the literal.
The storage formatting (Python format spec .10f on v, then rstrip of
zeros and of the point) is embedded
exactly at the decimal level: fixed-point rendering with 10 fractional
digits (rounding the value to 10 decimal places) followed by stripping
trailing zeros and a trailing point. -/

/-- A decimal literal as captured by the coordinate regex
`-?\d+\.?\d*`: optional sign, integer part, fraction digits. -/
structure DecLit where
  neg : Bool
  ipart : Nat
  frac : List Nat

/-- Value of a fraction-digit list: d1/10 + d2/100 + ... -/
def fracValue (ds : List Nat) : ℚ :=
  ds.foldr (fun d acc => ((d : ℚ) + acc) / 10) 0

/-- Numerator of a fraction-digit list over 10^length. -/
def fracNum : List Nat → Nat
  | [] => 0
  | d :: ds => d * 10 ^ ds.length + fracNum ds

/-- The exact rational value of a captured decimal literal
(idealisation of Python `float(capture)`). -/
def DecLit.value (d : DecLit) : ℚ :=
  let mag : ℚ := (d.ipart : ℚ) + fracValue d.frac
  if d.neg then -mag else mag

/-- The scaled integer used by 10-place fixed-point formatting:
`round(v * 10^10)`. -/
def scaled10 (q : ℚ) : ℤ := round (q * 10 ^ 10)

/-- The numeric value actually denoted by the stored coordinate string:
the input rounded to 10 decimal places. -/
def roundedValue (q : ℚ) : ℚ := ((scaled10 q : ℚ)) / 10 ^ 10

/-- Embedding of the Python format spec .10f: fixed-point with exactly 10
fractional digits. -/
def fixed10 (q : ℚ) : String :=
  (if scaled10 q < 0 then "-" else "")
    ++ toString ((scaled10 q).natAbs / 10 ^ 10) ++ "."
    ++ padLeftZeros (toString ((scaled10 q).natAbs % 10 ^ 10)) 10

/-- Storage formatting of a coordinate value (index.py lines 1007-1008):
format spec .10f followed by rstrip of zeros and of the point. -/
def store_coordinate (q : ℚ) : String :=
  rstripChar (rstripChar (fixed10 q) (Char.ofNat 48)) (Char.ofNat 46)

/-! ### Bounded event store (utils/redis_client.py)

Streams are modelled oldest-first; ids are per-stream, strictly
increasing naturals (Redis assigns monotonically increasing ids under
`XADD *`).  Event timestamps are omitted (wall clock).  The happy path
is modelled: Redis is reachable and commands succeed, so the boolean
results of delete/clear are the non-exceptional ones. -/

/-- Attachment metadata collected by build_cosmos_content. -/
structure AttachmentMeta where
  filename : String
  media_type : String
  size_bytes : Nat
deriving DecidableEq

/-- The `context_metadata` dictionary built by the pipeline (index.py
lines 977-983 plus the conditional coordinate keys of lines 1022-1024). -/
structure ContextMetadata where
  display_name : String
  severity : String
  reason : String
  attachments : List AttachmentMeta
  source : String
  latitude : Option String
  longitude : Option String
deriving DecidableEq

/-- One stream entry.  The three add methods populate different field
dictionaries; the union is modelled, with absent fields as `none`. -/
structure Entry where
  id : Nat
  prompt : String
  user_id : Option String
  filter_reason : Option String
  reject_reason : Option String
  metadata : Option ContextMetadata
deriving DecidableEq

/-- One bounded append-only stream. -/
structure EvStream where
  counter : Nat
  entries : List Entry
deriving DecidableEq

/-- `MAX_STREAM_LENGTH` of ContextBusClient. -/
def MAX_STREAM_LENGTH : Nat := 1000

/-- Redis XADD with an exact MAXLEN trim: append with a fresh id, then
evict oldest entries until the length is within `maxlen`. -/
def EvStream.xadd (s : EvStream) (mk : Nat → Entry) (maxlen : Nat) : EvStream × Nat :=
  let id := s.counter + 1
  let l := s.entries ++ [mk id]
  (⟨id, if maxlen < l.length then l.drop (l.length - maxlen) else l⟩, id)

/-- Redis XDEL: remove the entry with the given id, if present. -/
def EvStream.xdel (s : EvStream) (eid : Nat) : EvStream :=
  ⟨s.counter, s.entries.filter (fun e => e.id != eid)⟩

/-- Redis XREVRANGE + - COUNT n, as formatted by get_recent_events:
newest first, at most `count` entries. -/
def EvStream.readRecent (s : EvStream) (count : Nat) : List Entry :=
  s.entries.reverse.take count

/-- Redis XLEN. -/
def EvStream.xlen (s : EvStream) : Nat := s.entries.length

/-- Redis XTRIM MAXLEN 0: drop every entry. -/
def EvStream.xtrimZero (s : EvStream) : EvStream := ⟨s.counter, []⟩

/-- The three fixed streams of ContextBusClient: `context:events`
(Audit), `context:filtered` (Memory), `context:rejected` (Rejected). -/
structure Store where
  events : EvStream
  filtered : EvStream
  rejected : EvStream
deriving DecidableEq

/-- The store before any event was written. -/
def emptyStore : Store := ⟨⟨0, []⟩, ⟨0, []⟩, ⟨0, []⟩⟩

/-- Python `s or default` for an optional string. -/
def truthyOpt (o : Option String) : Bool :=
  match o with
  | some s => !strEmpty s
  | none => false

/-- Python `s or default`: the string when truthy, else the default. -/
def orDefault (o : Option String) (d : String) : String :=
  match o with
  | some s => if strEmpty s then d else s
  | none => d

/-- ContextBusClient.add_event: append to the main (Audit) stream. -/
def Store.add_event (st : Store) (prompt : String) (user_id : Option String)
    (metadata : Option ContextMetadata) : Store × Nat :=
  let (s, id) := st.events.xadd
    (fun i => ⟨i, prompt, some (orDefault user_id "anonymous"), none, none, metadata⟩)
    MAX_STREAM_LENGTH
  (⟨s, st.filtered, st.rejected⟩, id)

/-- ContextBusClient.add_filtered_event: append to the Memory stream. -/
def Store.add_filtered_event (st : Store) (prompt : String) (filter_reason : String)
    (metadata : Option ContextMetadata) : Store × Nat :=
  let (s, id) := st.filtered.xadd
    (fun i => ⟨i, prompt, none, some filter_reason, none, metadata⟩)
    MAX_STREAM_LENGTH
  (⟨st.events, s, st.rejected⟩, id)

/-- ContextBusClient.add_rejected_event: append to the Rejected stream. -/
def Store.add_rejected_event (st : Store) (prompt : String) (reject_reason : String)
    (metadata : Option ContextMetadata) : Store × Nat :=
  let (s, id) := st.rejected.xadd
    (fun i => ⟨i, prompt, none, none, some reject_reason, metadata⟩)
    MAX_STREAM_LENGTH
  (⟨st.events, st.filtered, s⟩, id)

/-- ContextBusClient.delete_event: XDEL from the main stream, and from
the Memory stream when `from_filtered`; returns True (the happy path:
XDEL of an absent id is a successful no-op in Redis). -/
def Store.delete_event (st : Store) (eid : Nat) (from_filtered : Bool) : Store × Bool :=
  (⟨st.events.xdel eid,
    if from_filtered then st.filtered.xdel eid else st.filtered,
    st.rejected⟩, true)

/-- ContextBusClient.clear_rejected_stream: XTRIM MAXLEN 0 on the
Rejected stream; returns True. -/
def Store.clear_rejected_stream (st : Store) : Store × Bool :=
  (⟨st.events, st.filtered, st.rejected.xtrimZero⟩, true)

/-- ContextBusClient.get_recent_events on a chosen stream. -/
def Store.get_recent_events (st : Store) (count : Nat) : List Entry :=
  st.events.readRecent count

/-- ContextBusClient.get_filtered_events. -/
def Store.get_filtered_events (st : Store) (count : Nat) : List Entry :=
  st.filtered.readRecent count

/-- ContextBusClient.get_rejected_events. -/
def Store.get_rejected_events (st : Store) (count : Nat) : List Entry :=
  st.rejected.readRecent count

/-- The store operations any caller of ContextBusClient can perform
(every endpoint is a sequence of these). -/
inductive BusOp where
  | add (prompt : String) (user_id : Option String) (md : Option ContextMetadata)
  | addFiltered (prompt : String) (filter_reason : String) (md : Option ContextMetadata)
  | addRejected (prompt : String) (reject_reason : String) (md : Option ContextMetadata)
  | del (eid : Nat) (from_filtered : Bool)
  | clearRejected

/-- Apply one store operation. -/
def Store.applyOp (st : Store) : BusOp → Store
  | .add p u m => (st.add_event p u m).1
  | .addFiltered p r m => (st.add_filtered_event p r m).1
  | .addRejected p r m => (st.add_rejected_event p r m).1
  | .del i f => (st.delete_event i f).1
  | .clearRejected => st.clear_rejected_stream.1

/-- Apply a sequence of store operations from a starting state. -/
def applyOps (ops : List BusOp) (st : Store) : Store :=
  ops.foldl Store.applyOp st

/-! ### Pipeline orchestration (index.py, process_traffic_intake)

The external calls are modelled by an oracle: each completion call is
an exception (`Except.error`, carrying `str(e)`) or a response whose
extracted message content is `none` (no choices / null content) or a
string; the Toolhouse agent call is a status plus the coordinate pair
its response yields to extract_coordinates_from_response, if any.  The
store write section models the happy path (context bus available, Redis
reachable), the regime in which the routing invariants are stated. -/

/-- Outcome of the Toolhouse agent call (trigger_toolhouse_agent):
`completed` carries the decimal literals the coordinate regex captures
from the response, if any. -/
inductive ToolStatus where
  | completed (coords : Option (DecLit × DecLit))
  | failed
  | skippedMissingUrl

/-- Oracle for all external collaborators of one pipeline run. -/
structure Oracle where
  loads : JsonLoads
  classifier : Except String (Option String)
  summarizer : Except String (Option String)
  evaluator : Except String (Option String)
  toolhouse : ToolStatus

/-- One intake request (the transport-validated form fields). -/
structure IntakeInput where
  text : String
  display_name : Option String
  latitude : Option String
  longitude : Option String
  attachments : List AttachmentMeta

/-- The `evaluation_payload` dictionary restricted to its four
contract keys (always present after the defaulting steps). -/
structure EvalPayload where
  include_in_context : JVal
  severity : JVal
  summary : JVal
  reason : JVal

/-- Relevance classification stage (index.py lines 728-861): returns
(is_traffic_related, traffic_relevance_reason, classifier call made).
The initial security defaults of lines 730-731 are overwritten on every
path, so only the final values appear. -/
def relevanceStage (o : Oracle) (has_kw : Bool) : Bool × String × Bool :=
  if has_kw = false then
    (false, "No traffic keywords detected - immediate rejection", false)
  else
    match o.classifier with
    | .error e =>
      (true, "AI error but keywords detected - accepted (" ++ strTake e 50 ++ ")", true)
    | .ok content =>
      let relevance_text := content.getD ""
      if strEmpty relevance_text then
        (true, "AI returned empty response but keywords detected - accepted", true)
      else
        let relevance_data := extract_json_block o.loads relevance_text
        if !relevance_data.isEmpty && (getKey relevance_data "is_traffic_related").isSome then
          if ((getKey relevance_data "is_traffic_related").getD (.bool false)).truthy then
            (true, strOrDefault (getKey relevance_data "reason") "AI confirmed traffic-related", true)
          else
            (false, strOrDefault (getKey relevance_data "reason") "AI rejected as non-traffic", true)
        else
          (true, "AI parsing failed but keywords detected - accepted (raw: "
                 ++ strTake relevance_text 100 ++ ")", true)

/-- Summarizer stage (index.py lines 863-900): the value of
`nemotron_summary`.  Called only for relevant reports; any failure or
missing choices degrades to the raw text content. -/
def summaryStage (o : Oracle) (rel : Bool) (text_content : String) : String :=
  if rel then
    match o.summarizer with
    | .error _ => text_content
    | .ok none => text_content
    | .ok (some c) => pyStrip c
  else "[NON-TRAFFIC]: " ++ text_content

/-- Evaluator stage (index.py lines 902-966): the final
`evaluation_payload` and whether the evaluator call was made.  For a
relevant report the defaults are merged with the parsed response
(setdefault on each key followed by dict.update amounts to key-wise
choice of the parsed value over the default). -/
def evaluationStage (o : Oracle) (rel : Bool) (relReason : String)
    (nemotron_summary : String) : EvalPayload × Bool :=
  if rel = false then
    (⟨.bool false, .str "irrelevant",
      .str ("[FILTERED - Non-traffic content]: " ++ nemotron_summary),
      .str ("Content rejected by traffic filter: " ++ relReason)⟩, false)
  else
    let defaults : EvalPayload :=
      ⟨.bool true, .str "medium", .str nemotron_summary,
       .str "Traffic report submitted by operator"⟩
    match o.evaluator with
    | .error _ => (defaults, true)
    | .ok content =>
      let evaluation_text := content.getD ""
      let parsed := extract_json_block o.loads evaluation_text
      if parsed.isEmpty then (defaults, true)
      else
        (⟨(getKey parsed "include_in_context").getD (.bool true),
          (getKey parsed "severity").getD (.str "medium"),
          (getKey parsed "summary").getD (.str nemotron_summary),
          (getKey parsed "reason").getD (.str "Traffic report submitted by operator")⟩, true)

/-- Coordinate stage (index.py lines 985-1019): the final values of the
`latitude`/`longitude` variables and whether the Toolhouse agent was
invoked.  Extraction runs only for relevant reports with nonempty text;
extracted coordinates override caller GPS, otherwise the caller values
survive as the fallback. -/
def coordStage (o : Oracle) (text : String) (rel : Bool)
    (lat lon : Option String) : Option String × Option String × Bool :=
  if !strEmpty (pyStrip text) && rel then
    match o.toolhouse with
    | .completed (some (la, lo)) =>
      (some (store_coordinate la.value), some (store_coordinate lo.value), true)
    | _ => (lat, lon, true)
  else (lat, lon, false)

/-- The `context_metadata` dictionary (index.py lines 977-983, with the
coordinate keys of lines 1022-1027 added only for relevant reports). -/
def mkMetadata (display_name : Option String) (severity rationale : String)
    (atts : List AttachmentMeta) (lat lon : Option String) (rel : Bool) :
    ContextMetadata :=
  ⟨orDefault display_name "anonymous", severity, rationale, atts, "traffic-intake",
   if truthyOpt lat && truthyOpt lon && rel then lat else none,
   if truthyOpt lat && truthyOpt lon && rel then lon else none⟩

/-- The user id passed to add_event: `display_name or None`. -/
def uidArgOf (display_name : Option String) : Option String :=
  if truthyOpt display_name then display_name else none

/-- Result of the store write section. -/
structure WriteOutcome where
  store : Store
  main_event_id : Option Nat
  filtered_event_id : Option Nat
  rejected_event_id : Option Nat

/-- Store write section (index.py lines 1031-1065): always one
add_event on the Audit stream, then by branch one add_rejected_event,
one add_filtered_event, or nothing. -/
def writeStage (st : Store) (rel include_flag : Bool)
    (refined_summary rationale : String) (uid : Option String)
    (md : ContextMetadata) : WriteOutcome :=
  let (st1, mainId) := st.add_event refined_summary uid (some md)
  if rel = false then
    let (st2, rejId) := st1.add_rejected_event refined_summary
      ("NON-TRAFFIC: " ++ rationale) (some md)
    ⟨st2, some mainId, none, some rejId⟩
  else if include_flag then
    let (st2, filtId) := st1.add_filtered_event refined_summary rationale (some md)
    ⟨st2, some mainId, some filtId, none⟩
  else ⟨st1, some mainId, none, none⟩

/-- Everything process_traffic_intake computes that the claims refer
to, including which external calls were made. -/
structure IntakeResult where
  store : Store
  is_traffic_related : Bool
  traffic_relevance_reason : String
  nemotron_summary : String
  evaluation_payload : EvalPayload
  include_flag : Bool
  severity : String
  refined_summary : String
  rationale : String
  context_metadata : ContextMetadata
  main_event_id : Option Nat
  filtered_event_id : Option Nat
  rejected_event_id : Option Nat
  classifier_called : Bool
  summarizer_called : Bool
  evaluator_called : Bool
  toolhouse_called : Bool

/-- Embedding of process_traffic_intake (index.py lines 685-1098) after
transport validation, composed from the stage functions in source
order. -/
def process_traffic_intake (inp : IntakeInput) (o : Oracle) (st : Store) :
    IntakeResult :=
  let text_content := text_content_of inp.text
  let has_kw := keywordEvidence text_content
  let rstage := relevanceStage o has_kw
  let rel := rstage.1
  let relReason := rstage.2.1
  let classifierCalled := rstage.2.2
  let nemotron_summary := summaryStage o rel text_content
  let estage := evaluationStage o rel relReason nemotron_summary
  let payload := estage.1
  let evaluatorCalled := estage.2
  let include_flag := payload.include_in_context.truthy
  let severity := normalizeSeverity payload.severity
  let refined_summary :=
    if payload.summary.truthy then pyStr payload.summary else nemotron_summary
  let rationale :=
    if payload.reason.truthy then pyStr payload.reason else "No rationale provided."
  let cstage := coordStage o inp.text rel inp.latitude inp.longitude
  let md := mkMetadata inp.display_name severity rationale inp.attachments
    cstage.1 cstage.2.1 rel
  let w := writeStage st rel include_flag refined_summary rationale
    (uidArgOf inp.display_name) md
  ⟨w.store, rel, relReason, nemotron_summary, payload, include_flag, severity,
   refined_summary, rationale, md, w.main_event_id, w.filtered_event_id,
   w.rejected_event_id, classifierCalled, rel, evaluatorCalled, cstage.2.2⟩

/-- The transport-level validation of the endpoint (index.py lines
694-698): a report with no text and no attachments is rejected before
the pipeline starts. -/
def traffic_intake_endpoint (inp : IntakeInput) (o : Oracle) (st : Store) :
    Except String IntakeResult :=
  if strEmpty (pyStrip inp.text) && inp.attachments.isEmpty then
    .error "Provide a description or at least one attachment."
  else .ok (process_traffic_intake inp o st)

/-- Embedding of the archive endpoint (index.py lines 1224-1253):
delete the event id from the Audit and Memory streams. -/
def archive_event (st : Store) (eid : Nat) : Store × Bool :=
  st.delete_event eid true

/-! ### Auxiliary definitions for the stated properties and witnesses -/

/-- All three streams within the `MAX_STREAM_LENGTH` bound. -/
def StoreBounded (st : Store) : Prop :=
  st.events.entries.length ≤ MAX_STREAM_LENGTH ∧
  st.filtered.entries.length ≤ MAX_STREAM_LENGTH ∧
  st.rejected.entries.length ≤ MAX_STREAM_LENGTH

/-- A minimal entry family used in concrete witnesses. -/
def plainEntry (i : Nat) : Entry := ⟨i, "p", none, none, none, none⟩

/-- A concrete stream already at the capacity bound. -/
def bigStream : EvStream := ⟨1000, (List.range 1000).map plainEntry⟩

/-- A concrete store used in the deletion witness. -/
def deleteDemoStore : Store :=
  ⟨⟨2, [plainEntry 1, plainEntry 2]⟩, ⟨1, [plainEntry 1]⟩, ⟨0, []⟩⟩

/-- An oracle on which every external call fails and json.loads always
fails: exercises the fallback paths. -/
def oracleQuiet : Oracle :=
  ⟨fun _ => none, .error "connection error", .error "connection error",
   .error "connection error", .failed⟩

/-- A non-traffic intake request carrying caller GPS coordinates. -/
def inpReject : IntakeInput :=
  ⟨"hi, how are you", none, some "30.2672", some "-97.7431", []⟩

/-- A traffic-related intake request. -/
def inpTraffic : IntakeInput :=
  ⟨"Accident on I-35 blocking two lanes near downtown Austin",
   some "operator7", none, none, []⟩

/-- The decimal literal 0.00000000001 (eleven fraction digits), as the
coordinate regex would capture it from an agent response. -/
def tinyLit : DecLit := ⟨false, 0, [0, 0, 0, 0, 0, 0, 0, 0, 0, 0, 1]⟩

/-- A concrete captured coordinate pair for the formatting witness. -/
def austinLat : DecLit := ⟨false, 30, [2, 6, 7, 2]⟩

/-- Longitude partner of `austinLat`. -/
def austinLon : DecLit := ⟨true, 97, [7, 4, 3, 1]⟩

/-- Oracle whose Toolhouse call completes with captured coordinates. -/
def oracleGeo : Oracle :=
  ⟨fun _ => none, .error "connection error", .error "connection error",
   .error "connection error", .completed (some (austinLat, austinLon))⟩

/-! ### Helper lemmas -/

theorem any_congr_on {α : Type} (l : List α) (p q : α → Bool)
    (h : ∀ x ∈ l, p x = q x) : l.any p = l.any q := by
  induction l with
  | nil => rfl
  | cons a as ih =>
    simp only [List.any_cons, h a (by simp)]
    rw [ih (fun x hx => h x (by simp [hx]))]

theorem reject_phrases_lower : ∀ p ∈ reject_phrases, lowerStr p = p := by decide

theorem traffic_keywords_lower : ∀ k ∈ traffic_keywords, lowerStr k = k := by decide

theorem xadd_entries_length (s : EvStream) (mk : Nat → Entry) (m : Nat) :
    ((s.xadd mk m).1).entries.length = min (s.entries.length + 1) m := by
  unfold EvStream.xadd
  dsimp only
  split
  · rename_i h
    simp only [List.length_drop, List.length_append, List.length_cons,
      List.length_nil] at *
    omega
  · rename_i h
    simp only [List.length_append, List.length_cons, List.length_nil] at *
    omega

theorem bounded_applyOp (st : Store) (op : BusOp) (h : StoreBounded st) :
    StoreBounded (st.applyOp op) := by
  obtain ⟨h1, h2, h3⟩ := h
  cases op with
  | add p u m =>
    refine ⟨?_, h2, h3⟩
    simp [Store.applyOp, Store.add_event, xadd_entries_length]
  | addFiltered p r m =>
    refine ⟨h1, ?_, h3⟩
    simp [Store.applyOp, Store.add_filtered_event, xadd_entries_length]
  | addRejected p r m =>
    refine ⟨h1, h2, ?_⟩
    simp [Store.applyOp, Store.add_rejected_event, xadd_entries_length]
  | del i f =>
    refine ⟨?_, ?_, h3⟩
    · exact le_trans (List.length_filter_le _ _) h1
    · simp only [Store.applyOp, Store.delete_event]
      split
      · exact le_trans (List.length_filter_le _ _) h2
      · exact h2
  | clearRejected =>
    exact ⟨h1, h2, by simp [Store.applyOp, Store.clear_rejected_stream, EvStream.xtrimZero]⟩

theorem bounded_applyOps (ops : List BusOp) :
    ∀ st : Store, StoreBounded st → StoreBounded (applyOps ops st) := by
  induction ops with
  | nil => intro st h; exact h
  | cons a l ih => intro st h; exact ih _ (bounded_applyOp st a h)

theorem xdel_idem (s : EvStream) (eid : Nat) : (s.xdel eid).xdel eid = s.xdel eid := by
  unfold EvStream.xdel
  simp [List.filter_filter]

theorem reject_any_eq (t : String) :
    reject_phrases.any (fun p => occursCI p t)
      = reject_phrases.any (fun p => containsSub (lowerStr t) p) :=
  any_congr_on _ _ _ (fun p hp => by
    show containsSub (lowerStr t) (lowerStr p) = containsSub (lowerStr t) p
    rw [reject_phrases_lower p hp])

theorem keywords_any_eq (t : String) :
    traffic_keywords.any (fun k => occursCI k t)
      = traffic_keywords.any (fun k => containsSub (lowerStr t) k) :=
  any_congr_on _ _ _ (fun k hk => by
    show containsSub (lowerStr t) (lowerStr k) = containsSub (lowerStr t) k
    rw [traffic_keywords_lower k hk])

/-! ### Claim theorems -/

/-- Claim C4: the keyword prefilter is a pure function of the report
text: if any reject phrase occurs as a case-insensitive substring the
result is false regardless of accept-keyword matches; otherwise the
result is true iff at least one accept keyword occurs as a
case-insensitive substring. -/
theorem claim_C4_prefilter_contract (t : String) :
    (reject_phrases.any (fun p => occursCI p t) = true → keywordEvidence t = false) ∧
    (reject_phrases.any (fun p => occursCI p t) = false →
      (keywordEvidence t = true ↔ traffic_keywords.any (fun k => occursCI k t) = true)) := by
  rw [reject_any_eq, keywords_any_eq]
  unfold keywordEvidence
  constructor
  · intro h
    simp [h]
  · intro h
    simp [h]

/-- Witness for C4: "hello" is reject-phrased hence filtered out;
"Accident on I-35" carries accept keywords and no reject phrase. -/
theorem claim_C4_prefilter_contract_witness :
    keywordEvidence "hello" = false ∧ keywordEvidence "Accident on I-35" = true := by
  constructor
  · exact (claim_C4_prefilter_contract "hello").1 (by decide)
  · exact ((claim_C4_prefilter_contract "Accident on I-35").2 (by decide)).mpr (by decide)

/-- Claim C10: severity normalization is case-insensitive (the
evaluator string is lowercased before the enum check, so any case
variant of low / medium / high / irrelevant is accepted as its
lowercase form), and the severity carried by the result and stored in
the metadata is always exactly one of low, medium, high, irrelevant,
unknown. -/
theorem claim_C10_severity_normalization :
    (∀ s : String, lowerStr s ∈ severity_enum → normalizeSeverity (.str s) = lowerStr s) ∧
    (∀ v : JVal, normalizeSeverity v ∈ severity_enum ++ ["unknown"]) ∧
    (∀ (inp : IntakeInput) (o : Oracle) (st : Store),
      (process_traffic_intake inp o st).severity
        = normalizeSeverity (process_traffic_intake inp o st).evaluation_payload.severity ∧
      (process_traffic_intake inp o st).context_metadata.severity
        = (process_traffic_intake inp o st).severity ∧
      (process_traffic_intake inp o st).severity ∈ severity_enum ++ ["unknown"]) := by
  have henum : ∀ v : JVal, normalizeSeverity v ∈ severity_enum ++ ["unknown"] := by
    intro v
    unfold normalizeSeverity
    dsimp only
    split
    · rename_i h
      simp [severity_enum] at h ⊢
      tauto
    · simp
  refine ⟨?_, henum, ?_⟩
  · intro s h
    unfold normalizeSeverity
    dsimp only [pyStr]
    rw [if_pos h]
  · intro inp o st
    exact ⟨rfl, rfl, henum _⟩

/-- Witness for C10: "HIGH" normalizes to "high"; a junk severity in a
concrete pipeline run lands in the closed enum. -/
theorem claim_C10_severity_normalization_witness :
    normalizeSeverity (.str "HIGH") = "high" ∧
    normalizeSeverity (.str "critical") ∈ severity_enum ++ ["unknown"] ∧
    (process_traffic_intake inpTraffic oracleQuiet emptyStore).severity
      ∈ severity_enum ++ ["unknown"] := by
  refine ⟨?_, claim_C10_severity_normalization.2.1 _,
    (claim_C10_severity_normalization.2.2 inpTraffic oracleQuiet emptyStore).2.2⟩
  have h := claim_C10_severity_normalization.1 "HIGH" (by decide)
  rw [h]
  decide

/-- Claim C3: every stream reachable by client operations has length at
most MAX_STREAM_LENGTH (1000); an append always yields length
min(previous + 1, 1000); and an append to a stream at the bound evicts
exactly the oldest entry (FIFO), keeping the length at the bound. -/
theorem claim_C3_bounded_fifo :
    (∀ ops : List BusOp, StoreBounded (applyOps ops emptyStore)) ∧
    (∀ (s : EvStream) (mk : Nat → Entry),
      s.entries.length = MAX_STREAM_LENGTH →
        (s.xadd mk MAX_STREAM_LENGTH).1.entries
            = s.entries.drop 1 ++ [mk (s.counter + 1)] ∧
        (s.xadd mk MAX_STREAM_LENGTH).1.entries.length = MAX_STREAM_LENGTH) ∧
    (∀ (s : EvStream) (mk : Nat → Entry) (m : Nat),
      (s.xadd mk m).1.entries.length = min (s.entries.length + 1) m) := by
  refine ⟨?_, ?_, xadd_entries_length⟩
  · intro ops
    exact bounded_applyOps ops emptyStore (by exact ⟨by simp [emptyStore], by simp [emptyStore], by simp [emptyStore]⟩)
  · intro s mk h
    constructor
    · unfold EvStream.xadd
      dsimp only
      rw [if_pos (by simp [h, MAX_STREAM_LENGTH])]
      have hlen : (s.entries ++ [mk (s.counter + 1)]).length - MAX_STREAM_LENGTH = 1 := by
        simp [h]
      rw [hlen]
      exact List.drop_append_of_le_length (by rw [h]; norm_num [MAX_STREAM_LENGTH])
    · rw [xadd_entries_length, h]
      simp [MAX_STREAM_LENGTH]

/-- Witness for C3: a short operation sequence stays bounded, and an
append to a concrete full stream drops exactly its oldest entry. -/
theorem claim_C3_bounded_fifo_witness :
    StoreBounded (applyOps [BusOp.add "a" none none, BusOp.addRejected "b" "r" none] emptyStore) ∧
    (bigStream.xadd plainEntry MAX_STREAM_LENGTH).1.entries
      = bigStream.entries.drop 1 ++ [plainEntry 1001] := by
  constructor
  · exact claim_C3_bounded_fifo.1 _
  · exact (claim_C3_bounded_fifo.2.1 bigStream plainEntry
      (by simp [bigStream, MAX_STREAM_LENGTH])).1

/-- Claim C9: deletion by id is best-effort and idempotent:
delete_event over the Audit and Memory streams returns true regardless
of presence, a subsequent readRecent on either stream never returns the
id, and deleting the same id again returns true and leaves the store
(hence every stream length) unchanged; the archive endpoint is exactly
this operation. -/
theorem claim_C9_delete_idempotent (st : Store) (eid : Nat) :
    (st.delete_event eid true).2 = true ∧
    (∀ c : Nat, (((st.delete_event eid true).1.get_recent_events c).all
        (fun e => e.id != eid)) = true) ∧
    (∀ c : Nat, (((st.delete_event eid true).1.get_filtered_events c).all
        (fun e => e.id != eid)) = true) ∧
    ((st.delete_event eid true).1.delete_event eid true
        = ((st.delete_event eid true).1, true)) ∧
    archive_event st eid = st.delete_event eid true := by
  refine ⟨rfl, ?_, ?_, ?_, rfl⟩
  · intro c
    rw [List.all_eq_true]
    intro e he
    have h1 : e ∈ ((st.delete_event eid true).1.events.entries).reverse :=
      List.mem_of_mem_take he
    rw [List.mem_reverse] at h1
    simp only [Store.delete_event, EvStream.xdel, List.mem_filter] at h1
    exact h1.2
  · intro c
    rw [List.all_eq_true]
    intro e he
    have h1 : e ∈ ((st.delete_event eid true).1.filtered.entries).reverse :=
      List.mem_of_mem_take he
    rw [List.mem_reverse] at h1
    simp only [Store.delete_event, if_pos, EvStream.xdel, List.mem_filter] at h1
    exact h1.2
  · simp only [Store.delete_event, if_pos]
    rw [xdel_idem, xdel_idem]

/-- Witness for C9 at a concrete populated store and id. -/
theorem claim_C9_delete_idempotent_witness :
    (deleteDemoStore.delete_event 1 true).2 = true ∧
    ((deleteDemoStore.delete_event 1 true).1.get_recent_events 10).all
        (fun e => e.id != 1) = true ∧
    ((deleteDemoStore.delete_event 1 true).1.delete_event 1 true
        = ((deleteDemoStore.delete_event 1 true).1, true)) := by
  obtain ⟨h1, h2, h3, h4, h5⟩ := claim_C9_delete_idempotent deleteDemoStore 1
  exact ⟨h1, h2 10, h4⟩

/-- Counterexample for C5 as stated: on the non-traffic input
"hi, how are you" the pipeline rejects, but its relevance reason is the
string "No traffic keywords detected - immediate rejection", not the
claimed "No traffic keywords detected"; the rejected event reason is a
further-prefixed string, so no stored or returned reason equals the
claimed one either. -/
theorem claim_C5_counterexample :
    (process_traffic_intake inpReject oracleQuiet emptyStore).is_traffic_related = false ∧
    (process_traffic_intake inpReject oracleQuiet emptyStore).traffic_relevance_reason
      = "No traffic keywords detected - immediate rejection" ∧
    (process_traffic_intake inpReject oracleQuiet emptyStore).traffic_relevance_reason
      ≠ "No traffic keywords detected" := by
  refine ⟨by decide, by decide, ?_⟩
  intro h
  rw [show (process_traffic_intake inpReject oracleQuiet emptyStore).traffic_relevance_reason
      = "No traffic keywords detected - immediate rejection" from by decide] at h
  exact absurd h (by decide)

/-- Claim C5 (amended): for any report the prefilter rejects, the
pipeline sets isRelevant false with reason
"No traffic keywords detected - immediate rejection", routes the report
to the Rejected stream, and makes zero external calls: no classifier,
summarizer, evaluator, or geocoding call occurs. -/
theorem claim_C5_amended (inp : IntakeInput) (o : Oracle) (st : Store)
    (r : IntakeResult) (hr : r = process_traffic_intake inp o st)
    (h : keywordEvidence (text_content_of inp.text) = false) :
    r.is_traffic_related = false ∧
    r.traffic_relevance_reason = "No traffic keywords detected - immediate rejection" ∧
    r.classifier_called = false ∧ r.summarizer_called = false ∧
    r.evaluator_called = false ∧ r.toolhouse_called = false ∧
    r.rejected_event_id.isSome = true ∧ r.filtered_event_id = none ∧
    r.store.rejected = (st.add_rejected_event r.refined_summary
      ("NON-TRAFFIC: " ++ r.rationale) (some r.context_metadata)).1.rejected ∧
    r.store.filtered = st.filtered := by
  subst hr
  unfold process_traffic_intake
  simp only [h]
  simp [relevanceStage, evaluationStage, summaryStage, coordStage, writeStage,
    Store.add_event, Store.add_rejected_event, JVal.truthy]

/-- Witness for the amended C5 at a concrete rejected report. -/
theorem claim_C5_amended_witness :
    (process_traffic_intake inpReject oracleQuiet emptyStore).is_traffic_related = false ∧
    (process_traffic_intake inpReject oracleQuiet emptyStore).classifier_called = false ∧
    (process_traffic_intake inpReject oracleQuiet emptyStore).toolhouse_called = false ∧
    (process_traffic_intake inpReject oracleQuiet emptyStore).rejected_event_id.isSome = true := by
  obtain ⟨h1, h2, h3, h4, h5, h6, h7, h8, h9, h10⟩ :=
    claim_C5_amended inpReject oracleQuiet emptyStore _ rfl (by decide)
  exact ⟨h1, h3, h6, h7⟩

/-- Claim C2: a report classified not traffic-related never has
latitude or longitude in its stored metadata — even when the caller
supplied GPS coordinates in the request (the input coordinates are
universally quantified) — and the geocoding agent is not invoked at
all; both events written for such a report (Audit and Rejected) carry
exactly this coordinate-free metadata. -/
theorem claim_C2_no_coords_when_rejected (inp : IntakeInput) (o : Oracle)
    (st : Store) (r : IntakeResult) (hr : r = process_traffic_intake inp o st)
    (h : r.is_traffic_related = false) :
    r.context_metadata.latitude = none ∧ r.context_metadata.longitude = none ∧
    r.toolhouse_called = false ∧
    r.store.events = (st.add_event r.refined_summary (uidArgOf inp.display_name)
      (some r.context_metadata)).1.events ∧
    r.store.rejected = (st.add_rejected_event r.refined_summary
      ("NON-TRAFFIC: " ++ r.rationale) (some r.context_metadata)).1.rejected ∧
    r.store.filtered = st.filtered := by
  subst hr
  unfold process_traffic_intake at h ⊢
  rcases hrel : relevanceStage o (keywordEvidence (text_content_of inp.text))
    with ⟨rel, relReason, cc⟩
  simp only [hrel] at h ⊢
  cases rel with
  | true => simp at h
  | false =>
    simp [evaluationStage, summaryStage, coordStage, writeStage, mkMetadata,
      Store.add_event, Store.add_rejected_event, JVal.truthy]

/-- Witness for C2: a rejected report with caller GPS coordinates
stores no coordinates and skips the geocoding agent. -/
theorem claim_C2_no_coords_when_rejected_witness :
    (process_traffic_intake inpReject oracleQuiet emptyStore).context_metadata.latitude = none ∧
    (process_traffic_intake inpReject oracleQuiet emptyStore).context_metadata.longitude = none ∧
    (process_traffic_intake inpReject oracleQuiet emptyStore).toolhouse_called = false := by
  obtain ⟨h1, h2, h3, h4, h5, h6⟩ :=
    claim_C2_no_coords_when_rejected inpReject oracleQuiet emptyStore _ rfl (by decide)
  exact ⟨h1, h2, h3⟩

/-- Claim C1: every processed report writes exactly one Audit event
(the main stream always receives exactly one add_event), and at most
one of a Memory or Rejected event, never both: a non-relevant report
adds one Rejected event and leaves Memory untouched; a relevant report
with include_in_context true adds one Memory event and leaves Rejected
untouched; a relevant report with include_in_context false adds
neither. -/
theorem claim_C1_routing_exclusive (inp : IntakeInput) (o : Oracle)
    (st : Store) (r : IntakeResult) (hr : r = process_traffic_intake inp o st) :
    (r.store.events = (st.add_event r.refined_summary (uidArgOf inp.display_name)
        (some r.context_metadata)).1.events) ∧
    (r.is_traffic_related = false →
      r.store.rejected = (st.add_rejected_event r.refined_summary
        ("NON-TRAFFIC: " ++ r.rationale) (some r.context_metadata)).1.rejected ∧
      r.store.filtered = st.filtered ∧
      r.filtered_event_id = none ∧ r.rejected_event_id.isSome = true) ∧
    (r.is_traffic_related = true → r.include_flag = true →
      r.store.filtered = (st.add_filtered_event r.refined_summary r.rationale
        (some r.context_metadata)).1.filtered ∧
      r.store.rejected = st.rejected ∧
      r.rejected_event_id = none ∧ r.filtered_event_id.isSome = true) ∧
    (r.is_traffic_related = true → r.include_flag = false →
      r.store.filtered = st.filtered ∧ r.store.rejected = st.rejected ∧
      r.filtered_event_id = none ∧ r.rejected_event_id = none) := by
  subst hr
  unfold process_traffic_intake
  rcases hrel : relevanceStage o (keywordEvidence (text_content_of inp.text))
    with ⟨rel, relReason, cc⟩
  simp only [hrel]
  cases rel with
  | false =>
    simp [evaluationStage, summaryStage, coordStage, writeStage, mkMetadata,
      Store.add_event, Store.add_rejected_event, Store.add_filtered_event, JVal.truthy]
  | true =>
    rcases hest : evaluationStage o true relReason
        (summaryStage o true (text_content_of inp.text)) with ⟨payload, ecalled⟩
    simp only [hest]
    cases hincl : payload.include_in_context.truthy with
    | false =>
      simp [hincl, writeStage, Store.add_event, Store.add_rejected_event,
        Store.add_filtered_event]
    | true =>
      simp [hincl, writeStage, Store.add_event, Store.add_rejected_event,
        Store.add_filtered_event]

/-- Witness for C1 on both routing branches: a relevant report with
default include flag goes to Memory only; a rejected report goes to
Rejected only. -/
theorem claim_C1_routing_exclusive_witness :
    (process_traffic_intake inpTraffic oracleQuiet emptyStore).store.filtered.entries.length = 1 ∧
    (process_traffic_intake inpTraffic oracleQuiet emptyStore).store.rejected = emptyStore.rejected ∧
    (process_traffic_intake inpReject oracleQuiet emptyStore).store.filtered = emptyStore.filtered ∧
    (process_traffic_intake inpReject oracleQuiet emptyStore).rejected_event_id.isSome = true := by
  obtain ⟨-, -, hmem, -⟩ :=
    claim_C1_routing_exclusive inpTraffic oracleQuiet emptyStore _ rfl
  obtain ⟨hf, hrej, -, -⟩ := hmem (by decide) (by decide)
  obtain ⟨-, hfil2, -, hrejid⟩ :=
    (claim_C1_routing_exclusive inpReject oracleQuiet emptyStore _ rfl).2.1 (by decide)
  refine ⟨?_, hrej, hfil2, hrejid⟩
  rw [hf]
  decide

theorem getKey_isSome_nonempty (fs : JObj) (k : String) (v : JVal)
    (h : getKey fs k = some v) : fs.isEmpty = false := by
  cases fs with
  | nil => simp [getKey] at h
  | cons a t => simp [List.isEmpty]

/-- Claim C6: for a report that passed the prefilter, a classifier
error, an empty response, or an unparsable response (no JSON object, or
an object without the is_traffic_related key) all yield isRelevant true
with a reason string noting the fallback; isRelevant becomes false
exactly when the classifier returns parseable JSON whose
is_traffic_related field is falsy. -/
theorem claim_C6_classifier_fallback (inp : IntakeInput) (o : Oracle) (st : Store)
    (r : IntakeResult) (hr : r = process_traffic_intake inp o st)
    (hkw : keywordEvidence (text_content_of inp.text) = true) :
    (∀ e, o.classifier = .error e →
      r.is_traffic_related = true ∧
      r.traffic_relevance_reason
        = "AI error but keywords detected - accepted (" ++ strTake e 50 ++ ")") ∧
    (∀ content, o.classifier = .ok content → strEmpty (content.getD "") = true →
      r.is_traffic_related = true ∧
      r.traffic_relevance_reason
        = "AI returned empty response but keywords detected - accepted") ∧
    (∀ content, o.classifier = .ok content → strEmpty (content.getD "") = false →
      ((extract_json_block o.loads (content.getD "")).isEmpty = true ∨
        getKey (extract_json_block o.loads (content.getD "")) "is_traffic_related" = none) →
      r.is_traffic_related = true ∧
      r.traffic_relevance_reason
        = "AI parsing failed but keywords detected - accepted (raw: "
            ++ strTake (content.getD "") 100 ++ ")") ∧
    (r.is_traffic_related = false ↔
      ∃ s v, o.classifier = .ok (some s) ∧ strEmpty s = false ∧
        getKey (extract_json_block o.loads s) "is_traffic_related" = some v ∧
        v.truthy = false) := by
  subst hr
  unfold process_traffic_intake
  simp only [hkw]
  refine ⟨?_, ?_, ?_, ?_⟩
  · intro e he
    simp [relevanceStage, he]
  · intro content hc hemp
    simp [relevanceStage, hc, hemp]
  · intro content hc hemp hpar
    rcases hpar with hp | hp
    · simp [relevanceStage, hc, hemp, hp]
    · simp [relevanceStage, hc, hemp, hp]
  · constructor
    · intro hfalse
      cases co : o.classifier with
      | error e => simp [relevanceStage, co] at hfalse
      | ok content =>
        by_cases hemp : strEmpty (content.getD "") = true
        · simp [relevanceStage, co, hemp] at hfalse
        · rw [Bool.not_eq_true] at hemp
          cases hkeyv : getKey (extract_json_block o.loads (content.getD ""))
              "is_traffic_related" with
          | none => simp [relevanceStage, co, hemp, hkeyv] at hfalse
          | some v =>
            cases hv : v.truthy with
            | true =>
              simp [relevanceStage, co, hemp, hkeyv, hv,
                getKey_isSome_nonempty _ _ _ hkeyv] at hfalse
            | false =>
              cases content with
              | none => simp [strEmpty] at hemp
              | some s => exact ⟨s, v, rfl, hemp, hkeyv, hv⟩
    · rintro ⟨s, v, hc, hemp, hkeyv, hv⟩
      simp [relevanceStage, hc, hemp, hkeyv, hv,
        getKey_isSome_nonempty _ _ _ hkeyv]

/-- Witness for C6: on a keyword-passing report whose classifier call
errors, the pipeline accepts with the error-fallback reason. -/
theorem claim_C6_classifier_fallback_witness :
    (process_traffic_intake inpTraffic oracleQuiet emptyStore).is_traffic_related = true ∧
    (process_traffic_intake inpTraffic oracleQuiet emptyStore).traffic_relevance_reason
      = "AI error but keywords detected - accepted (connection error)" := by
  obtain ⟨herr, -, -, -⟩ :=
    claim_C6_classifier_fallback inpTraffic oracleQuiet emptyStore _ rfl (by decide)
  exact herr "connection error" rfl

/-- Counterexample for C7 as stated: for a relevant report whose
summarizer and evaluator calls both fail, the defaulted reason is
"Traffic report submitted by operator", not the claimed
"submitted by operator", and the defaulted summary is the raw report
text (there is no summarizer output to equal). -/
theorem claim_C7_counterexample :
    (process_traffic_intake inpTraffic oracleQuiet emptyStore).is_traffic_related = true ∧
    (process_traffic_intake inpTraffic oracleQuiet emptyStore).rationale
      = "Traffic report submitted by operator" ∧
    (process_traffic_intake inpTraffic oracleQuiet emptyStore).rationale
      ≠ "submitted by operator" ∧
    (process_traffic_intake inpTraffic oracleQuiet emptyStore).nemotron_summary
      = "Accident on I-35 blocking two lanes near downtown Austin" := by
  refine ⟨by decide, by decide, ?_, by decide⟩
  intro h
  rw [show (process_traffic_intake inpTraffic oracleQuiet emptyStore).rationale
      = "Traffic report submitted by operator" from by decide] at h
  exact absurd h (by decide)

/-- Claim C7 (amended): for a relevant report, fields missing from the
evaluator parsed response default to include_in_context true, severity
"medium", summary equal to the summarizer output (the raw text when the
summarizer call itself failed), and reason
"Traffic report submitted by operator"; failure of the evaluator call
produces exactly these defaults, and failure of the summarizer call
substitutes the raw text for the summary, instead of aborting the
report. -/
theorem claim_C7_evaluator_defaults (inp : IntakeInput) (o : Oracle) (st : Store)
    (r : IntakeResult) (hr : r = process_traffic_intake inp o st)
    (hrel : r.is_traffic_related = true) :
    (∀ e, o.evaluator = .error e →
      r.evaluation_payload = ⟨.bool true, .str "medium", .str r.nemotron_summary,
        .str "Traffic report submitted by operator"⟩) ∧
    (∀ content, o.evaluator = .ok content →
      (extract_json_block o.loads (content.getD "")).isEmpty = true →
      r.evaluation_payload = ⟨.bool true, .str "medium", .str r.nemotron_summary,
        .str "Traffic report submitted by operator"⟩) ∧
    (∀ content, o.evaluator = .ok content →
      (extract_json_block o.loads (content.getD "")).isEmpty = false →
      ((getKey (extract_json_block o.loads (content.getD "")) "include_in_context" = none →
          r.evaluation_payload.include_in_context = .bool true) ∧
       (getKey (extract_json_block o.loads (content.getD "")) "severity" = none →
          r.evaluation_payload.severity = .str "medium" ∧ r.severity = "medium") ∧
       (getKey (extract_json_block o.loads (content.getD "")) "summary" = none →
          r.evaluation_payload.summary = .str r.nemotron_summary ∧
          r.refined_summary = r.nemotron_summary) ∧
       (getKey (extract_json_block o.loads (content.getD "")) "reason" = none →
          r.evaluation_payload.reason = .str "Traffic report submitted by operator"))) ∧
    (∀ e, o.summarizer = .error e → r.nemotron_summary = text_content_of inp.text) := by
  subst hr
  unfold process_traffic_intake at hrel ⊢
  rcases hrel2 : relevanceStage o (keywordEvidence (text_content_of inp.text))
    with ⟨rel, relReason, cc⟩
  simp only [hrel2] at hrel ⊢
  cases rel with
  | false => simp at hrel
  | true =>
    refine ⟨?_, ?_, ?_, ?_⟩
    · intro e he
      simp [evaluationStage, he]
    · intro content hc hp
      simp [evaluationStage, hc, hp]
    · intro content hc hne
      refine ⟨?_, ?_, ?_, ?_⟩
      · intro hkey
        simp [evaluationStage, hc, hne, hkey]
      · intro hkey
        constructor
        · simp [evaluationStage, hc, hne, hkey]
        · simp [evaluationStage, hc, hne, hkey]
          decide
      · intro hkey
        constructor
        · simp [evaluationStage, hc, hne, hkey]
        · simp [evaluationStage, hc, hne, hkey, pyStr]
      · intro hkey
        simp [evaluationStage, hc, hne, hkey]
    · intro e he
      simp [summaryStage, he]

/-- Witness for the amended C7: with failing summarizer and evaluator
calls, the pipeline produces exactly the documented defaults. -/
theorem claim_C7_evaluator_defaults_witness :
    (process_traffic_intake inpTraffic oracleQuiet emptyStore).evaluation_payload
      = ⟨.bool true, .str "medium",
         .str (process_traffic_intake inpTraffic oracleQuiet emptyStore).nemotron_summary,
         .str "Traffic report submitted by operator"⟩ ∧
    (process_traffic_intake inpTraffic oracleQuiet emptyStore).nemotron_summary
      = text_content_of inpTraffic.text := by
  obtain ⟨herr, -, -, hsum⟩ :=
    claim_C7_evaluator_defaults inpTraffic oracleQuiet emptyStore _ rfl (by decide)
  exact ⟨herr "connection error" rfl, hsum "connection error" rfl⟩

theorem roundedValue_exact (z : ℤ) (e : ℕ) (he : e ≤ 10) :
    roundedValue ((z : ℚ) / 10 ^ e) = (z : ℚ) / 10 ^ e := by
  have h10 : ((10 : ℚ) ^ 10) = 10 ^ e * 10 ^ (10 - e) := by
    rw [← pow_add]
    congr 1
    omega
  have hx : (z : ℚ) / 10 ^ e * 10 ^ 10 = ((z * 10 ^ (10 - e) : ℤ) : ℚ) := by
    rw [h10]
    push_cast
    field_simp
    ring
  unfold roundedValue scaled10
  rw [hx, round_intCast]
  push_cast
  rw [h10]
  field_simp
  ring

theorem fracValue_eq (ds : List Nat) :
    fracValue ds = (fracNum ds : ℚ) / 10 ^ ds.length := by
  induction ds with
  | nil => simp [fracValue, fracNum]
  | cons d t ih =>
    show ((d : ℚ) + fracValue t) / 10 = (fracNum (d :: t) : ℚ) / 10 ^ (t.length + 1)
    rw [ih]
    show _ = ((d * 10 ^ t.length + fracNum t : ℕ) : ℚ) / 10 ^ (t.length + 1)
    push_cast
    rw [div_eq_div_iff (by norm_num) (by positivity)]
    field_simp
    ring

/-- Counterexample for C8 as stated: the agent-reported decimal literal
0.00000000001 (eleven decimal places) is stored as the string "0": the
10-decimal fixed-point formatting rounds it away, so full decimal
precision is not preserved. -/
theorem claim_C8_counterexample :
    store_coordinate tinyLit.value = "0" ∧
    roundedValue tinyLit.value ≠ tinyLit.value := by
  have hv : tinyLit.value = 1 / 10 ^ 11 := by
    norm_num [tinyLit, DecLit.value, fracValue]
  have hs : scaled10 tinyLit.value = 0 := by
    rw [hv]
    unfold scaled10
    rw [round_eq]
    norm_num
  constructor
  · unfold store_coordinate fixed10
    rw [hs]
    decide
  · unfold roundedValue
    rw [hs, hv]
    norm_num

/-- Claim C8 (amended): the stored coordinate string is the reported
value rounded to 10 decimal places (with trailing zeros stripped), so
precision is preserved exactly for values with at most 10 decimal
places — any reported decimal literal with at most 10 fraction digits
round-trips with no value change — while longer literals are rounded at
the 10th decimal; on extraction success the formatted strings of the
captured literals are exactly what the pipeline keeps. -/
theorem claim_C8_precision :
    (∀ (z : ℤ) (e : ℕ), e ≤ 10 → roundedValue ((z : ℚ) / 10 ^ e) = (z : ℚ) / 10 ^ e) ∧
    (∀ d : DecLit, d.frac.length ≤ 10 → roundedValue d.value = d.value) ∧
    (∀ (o : Oracle) (text : String) (lat lon : Option String) (la lo : DecLit),
      o.toolhouse = .completed (some (la, lo)) →
      strEmpty (pyStrip text) = false →
      coordStage o text true lat lon
        = (some (store_coordinate la.value), some (store_coordinate lo.value), true)) := by
  refine ⟨roundedValue_exact, ?_, ?_⟩
  · intro d hd
    have hbase : (d.ipart : ℚ) + (fracNum d.frac : ℚ) / 10 ^ d.frac.length
        = ((d.ipart * 10 ^ d.frac.length + fracNum d.frac : ℕ) : ℚ)
            / 10 ^ d.frac.length := by
      push_cast
      field_simp
    have hvz : ∃ z : ℤ, d.value = (z : ℚ) / 10 ^ d.frac.length := by
      unfold DecLit.value
      dsimp only
      rw [fracValue_eq]
      cases hn : d.neg with
      | false =>
        refine ⟨((d.ipart * 10 ^ d.frac.length + fracNum d.frac : ℕ) : ℤ), ?_⟩
        simp only [hn, Bool.false_eq_true, if_false]
        rw [hbase]
        push_cast
        ring
      | true =>
        refine ⟨-((d.ipart * 10 ^ d.frac.length + fracNum d.frac : ℕ) : ℤ), ?_⟩
        simp only [hn, if_true]
        rw [hbase]
        push_cast
        ring
    obtain ⟨z, hz⟩ := hvz
    rw [hz]
    exact roundedValue_exact z d.frac.length hd
  · intro o text lat lon la lo h1 h2
    unfold coordStage
    rw [h1, h2]
    simp

/-- Witness for the amended C8: the four-decimal Austin coordinates
round-trip exactly, and a completed geocoding call makes the pipeline
keep exactly their formatted strings, here "30.2672" and "-97.7431". -/
theorem claim_C8_precision_witness :
    roundedValue austinLat.value = austinLat.value ∧
    coordStage oracleGeo "5th and Lamar" true none none
      = (some (store_coordinate austinLat.value),
         some (store_coordinate austinLon.value), true) ∧
    store_coordinate austinLat.value = "30.2672" ∧
    store_coordinate austinLon.value = "-97.7431" := by
  have hlat : austinLat.value = 302672 / 10 ^ 4 := by
    norm_num [austinLat, DecLit.value, fracValue]
  have hlon : austinLon.value = -(977431 / 10 ^ 4) := by
    norm_num [austinLon, DecLit.value, fracValue]
  have hslat : scaled10 austinLat.value = 302672000000 := by
    rw [hlat]
    unfold scaled10
    rw [round_eq]
    norm_num
  have hslon : scaled10 austinLon.value = -977431000000 := by
    rw [hlon]
    unfold scaled10
    rw [round_eq]
    norm_num
  refine ⟨claim_C8_precision.2.1 austinLat (by decide),
    claim_C8_precision.2.2 oracleGeo "5th and Lamar" none none austinLat austinLon rfl
      (by decide), ?_, ?_⟩
  · unfold store_coordinate fixed10
    rw [hslat]
    decide
  · unfold store_coordinate fixed10
    rw [hslon]
    decide
